import Mathlib

/-!
Verification development for the docbox-api TypeScript client.

The repository contains two variants of the `DocboxClient` class: a
fetch-based one (`src/client.ts`) and an axios-based one carrying the
`search` operation.  Both are embedded below.  Strings are modelled as
`List Char`; JavaScript values appearing in query parameters are
modelled by the `JsVal` type; truthiness tests in the source are
modelled by explicit `Bool`-valued guards.
-/

namespace Docbox

/-- `baseUrl.replace(/\/$/, '')`: removes a single trailing slash. -/
def stripTrailingSlash (s : List Char) : List Char :=
  match s.reverse with
  | '/' :: rest => rest.reverse
  | _ => s

/-- `baseUrl.match(/:\d+$/)` as a boolean: the string ends with a colon
followed by one or more digits. -/
def hasPortSuffix (s : List Char) : Bool :=
  match s.reverse with
  | [] => false
  | c :: rest => c.isDigit && ((rest.dropWhile Char.isDigit).headD ' ' == ':')

/-- JavaScript `String.prototype.includes`. -/
def containsSub (pat : List Char) : List Char → Bool
  | [] => pat.isEmpty
  | c :: rest => List.isPrefixOf pat (c :: rest) || containsSub pat rest

/-- Number of start positions at which `pat` occurs in the string. -/
def countOcc (pat : List Char) : List Char → Nat
  | [] => 0
  | c :: rest => (if List.isPrefixOf pat (c :: rest) then 1 else 0) + countOcc pat rest

/-- The fixed API path segment `/api/v2` appended by both constructors. -/
def apiPath : List Char := "/api/v2".data

/-- The hostname substring special-cased by the fetch-variant constructor. -/
def cloudHost : List Char := "cloud.docbox.eu".data

/-- Decimal rendering of a number, as in `${port}` interpolation. -/
def natStr (n : Nat) : List Char := (Nat.repr n).data

/-- JS truthiness of `config.port : number | undefined`
(`undefined` and `0` are falsy). -/
def truthyNat : Option Nat → Bool
  | some n => n != 0
  | none => false

/-- Axios-variant constructor: strip a trailing slash; if the base ends in
`:digits` append only `/api/v2`; else if a truthy `config.port` is set
append `:port/api/v2`; else append `/api/v2`. -/
def buildBaseApiUrlAxios (baseUrl : List Char) (port : Option Nat) : List Char :=
  let b := stripTrailingSlash baseUrl
  if hasPortSuffix b then b ++ apiPath
  else if truthyNat port then b ++ ':' :: natStr (port.getD 0) ++ apiPath
  else b ++ apiPath

/-- Fetch-variant constructor (`src/client.ts`): strip a trailing slash; if
the base contains `cloud.docbox.eu` append only `/api/v2`; otherwise append
`:port/api/v2` where `port` is `config.port || 8081`. -/
def buildBaseApiUrlFetch (baseUrl : List Char) (port : Option Nat) : List Char :=
  let b := stripTrailingSlash baseUrl
  if containsSub cloudHost b then b ++ apiPath
  else b ++ ':' :: natStr (if truthyNat port then port.getD 0 else 8081) ++ apiPath

/-- `DocboxConfig` from `types.ts` (the axios-variant type additionally
carries the proxy fields; none of them affects URL construction). -/
structure DocboxConfig where
  baseUrl : List Char
  apiKey : List Char
  cloudId : Option (List Char) := none
  username : Option (List Char) := none
  password : Option (List Char) := none
  port : Option Nat := none
  proxyHost : Option (List Char) := none
  proxyPort : Option Nat := none

/-- `this.baseApiUrl` of the axios variant. -/
def effectiveEndpointAxios (cfg : DocboxConfig) : List Char :=
  buildBaseApiUrlAxios cfg.baseUrl cfg.port

/-- `this.baseApiUrl` of the fetch variant. -/
def effectiveEndpointFetch (cfg : DocboxConfig) : List Char :=
  buildBaseApiUrlFetch cfg.baseUrl cfg.port

/-- The full request target of the axios variant: axios joins the
configured `baseURL` with the per-call relative `url`. -/
def requestTargetAxios (cfg : DocboxConfig) (endpoint : List Char) : List Char :=
  effectiveEndpointAxios cfg ++ endpoint

/-- The full request target of the fetch variant:
`new URL(baseApiUrl + endpoint)`. -/
def requestTargetFetch (cfg : DocboxConfig) (endpoint : List Char) : List Char :=
  effectiveEndpointFetch cfg ++ endpoint

/-! ### Occurrence-counting lemmas -/

theorem countOcc_eq_zero_of_lt (pat s : List Char) (h : s.length < pat.length) :
    countOcc pat s = 0 := by
  induction s with
  | nil => rfl
  | cons c rest ih =>
    simp only [countOcc]
    have hnp : ¬ (List.isPrefixOf pat (c :: rest) = true) := by
      intro hp
      have := List.IsPrefix.length_le (List.isPrefixOf_iff_prefix.mp hp)
      simp only [List.length_cons] at this h
      omega
    rw [if_neg hnp, ih (by simp only [List.length_cons] at h; omega)]

theorem isPrefixOf_append_cons_eq (pat s b' : List Char) (c : Char) (hc : c ∉ pat) :
    List.isPrefixOf pat (s ++ c :: b') = List.isPrefixOf pat s := by
  induction pat generalizing s with
  | nil => simp [List.isPrefixOf]
  | cons p pt ih =>
    cases s with
    | nil =>
      have hpc : (p == c) = false := by
        have : p ≠ c := fun he => hc (he ▸ List.mem_cons_self p pt)
        simpa using this
      simp [List.isPrefixOf, hpc]
    | cons x s' =>
      have hct : c ∉ pt := fun hm => hc (List.mem_cons_of_mem p hm)
      simp only [List.cons_append, List.isPrefixOf, List.append_eq, ih s' hct]

theorem countOcc_append_cons (pat a b' : List Char) (c : Char) (hc : c ∉ pat) :
    countOcc pat (a ++ c :: b') = countOcc pat a + countOcc pat (c :: b') := by
  induction a with
  | nil => simp [countOcc]
  | cons x a' ih =>
    simp only [List.cons_append, countOcc, List.append_eq]
    have heq := isPrefixOf_append_cons_eq pat (x :: a') b' c hc
    simp only [List.cons_append] at heq
    by_cases h : List.isPrefixOf pat (x :: a') = true
    · rw [if_pos (by rw [heq]; exact h), if_pos h, ih]
      simp only [countOcc]
      omega
    · rw [if_neg (by rw [heq]; exact h), if_neg h, ih]
      simp only [countOcc]
      omega

theorem countOcc_eq_zero_of_head_notMem (c : Char) (pt s : List Char) (hc : c ∉ s) :
    countOcc (c :: pt) s = 0 := by
  induction s with
  | nil => rfl
  | cons x rest ih =>
    simp only [countOcc]
    have hxc : (c == x) = false := by
      have : c ≠ x := fun he => hc (he ▸ List.mem_cons_self x rest)
      simpa using this
    have hnp : ¬ (List.isPrefixOf (c :: pt) (x :: rest) = true) := by
      simp [List.isPrefixOf, hxc]
    rw [if_neg hnp, ih (fun hm => hc (List.mem_cons_of_mem x hm))]

theorem prefixOf_cons_append_self_iff (pat s : List Char) (x : Char)
    (hnb : ∀ d, d < pat.length → 0 < d → ¬ (List.isPrefixOf (pat.drop d) pat = true)) :
    (List.isPrefixOf pat ((x :: s) ++ pat) = true) ↔ (List.isPrefixOf pat (x :: s) = true) := by
  rw [List.isPrefixOf_iff_prefix, List.isPrefixOf_iff_prefix]
  constructor
  · intro h
    rcases List.prefix_or_prefix_of_prefix h (List.prefix_append (x :: s) pat) with hp | hp
    · exact hp
    · have hn : (x :: s).length ≤ pat.length := List.IsPrefix.length_le hp
      have heq : x :: s = pat.take (x :: s).length := List.prefix_iff_eq_take.mp hp
      have hsplit : pat = (x :: s) ++ pat.drop (x :: s).length := by
        conv_lhs => rw [← List.take_append_drop (x :: s).length pat]
        rw [← heq]
      by_cases ht : pat.drop (x :: s).length = []
      · rw [ht, List.append_nil] at hsplit
        rw [← hsplit]
      · exfalso
        have hdp : pat.drop (x :: s).length <+: pat := by
          have h2 : (x :: s) ++ pat.drop (x :: s).length <+: (x :: s) ++ pat := by
            rw [← hsplit]; exact h
          exact (List.prefix_append_right_inj (x :: s)).mp h2
        have hlen : (x :: s).length < pat.length := by
          have := congrArg List.length hsplit
          simp only [List.length_append] at this
          have hp0 : 0 < (pat.drop (x :: s).length).length := List.length_pos.mpr ht
          omega
        exact hnb (x :: s).length hlen (by simp) (List.isPrefixOf_iff_prefix.mpr hdp)
  · intro h
    exact List.IsPrefix.trans h (List.prefix_append (x :: s) pat)

theorem countOcc_append_self (pat : List Char) (hne : pat ≠ [])
    (hnb : ∀ d, d < pat.length → 0 < d → ¬ (List.isPrefixOf (pat.drop d) pat = true))
    (b : List Char) :
    countOcc pat (b ++ pat) = countOcc pat b + 1 := by
  induction b with
  | nil =>
    obtain ⟨p, pt, rfl⟩ : ∃ p pt, pat = p :: pt := by
      cases pat with
      | nil => exact absurd rfl hne
      | cons p pt => exact ⟨p, pt, rfl⟩
    simp only [List.nil_append, countOcc]
    have hself : List.isPrefixOf (p :: pt) (p :: pt) = true :=
      List.isPrefixOf_iff_prefix.mpr List.prefix_rfl
    rw [if_pos hself, countOcc_eq_zero_of_lt _ _ (by simp)]
  | cons x b' ih =>
    simp only [List.cons_append, countOcc, List.append_eq]
    have hiff := prefixOf_cons_append_self_iff pat b' x hnb
    simp only [List.cons_append] at hiff
    by_cases h : List.isPrefixOf pat (x :: b') = true
    · rw [if_pos (hiff.mpr h), if_pos h, ih]
      omega
    · rw [if_neg (fun hh => h (hiff.mp hh)), if_neg h, ih]
      omega

theorem containsSub_append_right (pat a s : List Char)
    (h : List.isPrefixOf pat s = true) : containsSub pat (a ++ s) = true := by
  induction a with
  | nil =>
    cases s with
    | nil =>
      have : pat = [] := by
        have := List.isPrefixOf_iff_prefix.mp h
        simpa using List.eq_nil_of_prefix_nil this
      simp [containsSub, this]
    | cons c rest => simp [containsSub, h]
  | cons x a' ih => simp [containsSub, ih]

theorem dropWhile_append_of_forall {p : Char → Bool} (l₁ l₂ : List Char)
    (h : ∀ x ∈ l₁, p x = true) :
    List.dropWhile p (l₁ ++ l₂) = List.dropWhile p l₂ := by
  induction l₁ with
  | nil => rfl
  | cons x l' ih =>
    rw [List.cons_append, List.dropWhile_cons, if_pos (h x (List.mem_cons_self x l'))]
    exact ih (fun y hy => h y (List.mem_cons_of_mem x hy))

/-- A string of the form `pre ++ ":" ++ digits` (digits nonempty) matches
the constructor's `:\d+$` check. -/
theorem hasPortSuffix_append_port (pre digits : List Char) (hd : digits ≠ [])
    (hdig : ∀ ch ∈ digits, ch.isDigit = true) :
    hasPortSuffix (pre ++ ':' :: digits) = true := by
  obtain ⟨e, es, he⟩ : ∃ e es, digits.reverse = e :: es := by
    cases hr : digits.reverse with
    | nil => exact absurd (by simpa using congrArg List.reverse hr) hd
    | cons e es => exact ⟨e, es, rfl⟩
  have hrev : (pre ++ ':' :: digits).reverse = e :: (es ++ ':' :: pre.reverse) := by
    rw [List.reverse_append, List.reverse_cons, he]
    simp [List.append_assoc]
  unfold hasPortSuffix
  rw [hrev]
  show (e.isDigit && (((es ++ ':' :: pre.reverse).dropWhile Char.isDigit).headD ' ' == ':'))
      = true
  have he_dig : e.isDigit = true :=
    hdig e (List.mem_reverse.mp (he ▸ List.mem_cons_self e es))
  have hes_dig : ∀ ch ∈ es, Char.isDigit ch = true := fun ch hm =>
    hdig ch (List.mem_reverse.mp (he ▸ List.mem_cons_of_mem e hm))
  rw [dropWhile_append_of_forall es (':' :: pre.reverse) hes_dig,
    List.dropWhile_cons, if_neg (by decide)]
  simp [he_dig]

/-- C1: for the axios-variant constructor, whenever the (slash-stripped) base
endpoint ends in an explicit `:digits` port suffix, contains that suffix
exactly once, and does not already contain `/api/v2`, the effective endpoint
is the base with `/api/v2` appended once: the port occurs exactly once, the
path segment `/api/v2` occurs exactly once, and the endpoint ends with it.
(The fetch-variant constructor violates the claim; see the counterexample.) -/
theorem C1_axios_port_not_duplicated
    (base pre digits : List Char) (port : Option Nat)
    (hb : stripTrailingSlash base = pre ++ ':' :: digits)
    (hd : digits ≠ [])
    (hdig : ∀ ch ∈ digits, ch.isDigit = true)
    (honce : countOcc (':' :: digits) (pre ++ ':' :: digits) = 1)
    (hnoapi : countOcc apiPath (pre ++ ':' :: digits) = 0) :
    buildBaseApiUrlAxios base port = (pre ++ ':' :: digits) ++ apiPath
    ∧ countOcc (':' :: digits) (buildBaseApiUrlAxios base port) = 1
    ∧ countOcc apiPath (buildBaseApiUrlAxios base port) = 1
    ∧ apiPath <:+ buildBaseApiUrlAxios base port := by
  have hps : hasPortSuffix (stripTrailingSlash base) = true := by
    rw [hb]; exact hasPortSuffix_append_port pre digits hd hdig
  have hurl : buildBaseApiUrlAxios base port = (pre ++ ':' :: digits) ++ apiPath := by
    simp only [buildBaseApiUrlAxios]
    rw [hb] at hps ⊢
    rw [if_pos hps]
  refine ⟨hurl, ?_, ?_, ?_⟩
  · rw [hurl]
    have hapi : apiPath = '/' :: "api/v2".data := by decide
    rw [hapi]
    have hslash : '/' ∉ ':' :: digits := by
      intro hm
      rcases List.mem_cons.mp hm with h1 | h2
      · exact absurd h1 (by decide)
      · have := hdig '/' h2
        exact absurd this (by decide)
    rw [countOcc_append_cons _ _ _ _ hslash, honce,
      countOcc_eq_zero_of_head_notMem ':' digits _ (by decide)]
  · rw [hurl, countOcc_append_self apiPath (by decide) (by decide), hnoapi]
  · rw [hurl]
    exact List.suffix_append _ _

theorem C1_axios_port_not_duplicated_witness :
    buildBaseApiUrlAxios ("https://host:8081".data) none = "https://host:8081/api/v2".data
    ∧ countOcc (':' :: "8081".data) (buildBaseApiUrlAxios ("https://host:8081".data) none) = 1
    ∧ countOcc apiPath (buildBaseApiUrlAxios ("https://host:8081".data) none) = 1 := by
  have h := C1_axios_port_not_duplicated ("https://host:8081".data) ("https://host".data)
    ("8081".data) none (by decide) (by decide) (by decide) (by decide) (by decide)
  exact ⟨by rw [h.1]; decide, h.2.1, h.2.2.1⟩

/-- C1 fails on the fetch-variant constructor: for the base
`https://host:8081` (explicit port suffix, no configured port) the
effective endpoint duplicates the port. -/
theorem C1_fetch_counterexample :
    buildBaseApiUrlFetch ("https://host:8081".data) none
      = "https://host:8081:8081/api/v2".data
    ∧ countOcc (':' :: "8081".data) (buildBaseApiUrlFetch ("https://host:8081".data) none)
      = 2 := by decide

/-- C3 (amended): the fetch-variant constructor applies the default port 8081
whenever no truthy explicit port is configured and the base does not contain
`cloud.docbox.eu` (the port-suffix hypothesis of the original claim is kept
although this variant never inspects it). -/
theorem C3_fetch_default_port (base : List Char) (port : Option Nat)
    (hcloud : containsSub cloudHost (stripTrailingSlash base) = false)
    (hport : truthyNat port = false)
    (_hnoport : hasPortSuffix (stripTrailingSlash base) = false) :
    buildBaseApiUrlFetch base port
      = stripTrailingSlash base ++ ':' :: natStr 8081 ++ apiPath
    ∧ containsSub (":8081".data) (buildBaseApiUrlFetch base port) = true := by
  have hurl : buildBaseApiUrlFetch base port
      = stripTrailingSlash base ++ ':' :: natStr 8081 ++ apiPath := by
    simp only [buildBaseApiUrlFetch]
    rw [if_neg (by rw [hcloud]; simp), if_neg (by rw [hport]; simp)]
  refine ⟨hurl, ?_⟩
  rw [hurl, List.append_assoc, List.cons_append]
  exact containsSub_append_right (":8081".data) (stripTrailingSlash base)
    (':' :: (natStr 8081 ++ apiPath)) (by decide)

theorem C3_fetch_default_port_witness :
    buildBaseApiUrlFetch ("https://host".data) none
      = stripTrailingSlash ("https://host".data) ++ ':' :: natStr 8081 ++ apiPath
    ∧ containsSub (":8081".data) (buildBaseApiUrlFetch ("https://host".data) none) = true :=
  C3_fetch_default_port ("https://host".data) none (by decide) (by decide) (by decide)

/-- C3 fails as stated: the axios-variant constructor never applies a
default port.  For base `https://host` (no port of its own) and no explicit
port, the effective endpoint has no `:8081` at all. -/
theorem C3_axios_counterexample :
    hasPortSuffix (stripTrailingSlash ("https://host".data)) = false
    ∧ buildBaseApiUrlAxios ("https://host".data) none = "https://host/api/v2".data
    ∧ containsSub (":8081".data) (buildBaseApiUrlAxios ("https://host".data) none)
      = false := by decide

/-! ### JavaScript values, query parameters and option records -/

/-- A JavaScript value that can appear in a query-parameter record. -/
inductive JsVal where
  | undef
  | null
  | str (s : List Char)
  | num (n : Int)
  | bool (b : Bool)
deriving DecidableEq

/-- The `request` filter `value !== undefined && value !== null`. -/
def JsVal.isDefined : JsVal → Bool
  | .undef => false
  | .null => false
  | _ => true

/-- Decimal rendering of a JavaScript number (integral case). -/
def intStr : Int → List Char
  | Int.ofNat m => natStr m
  | Int.negSucc m => '-' :: natStr (m + 1)

/-- JavaScript `String(value)`. -/
def JsVal.toStr : JsVal → List Char
  | .undef => "undefined".data
  | .null => "null".data
  | .str s => s
  | .num n => intStr n
  | .bool true => "true".data
  | .bool false => "false".data

/-- The query-serialization loop of the fetch variant's `request`: every
entry whose value is neither `undefined` nor `null` is appended as a
string (axios performs the equivalent filtering for `params`). -/
def serializeQuery (params : List (String × JsVal)) : List (String × List Char) :=
  (params.filter (fun kv => kv.2.isDefined)).map (fun kv => (kv.1, kv.2.toStr))

/-- First value stored under a key in a key-value record. -/
def lookupKey {α : Type} (k : String) : List (String × α) → Option α
  | [] => none
  | (k', v) :: rest => if k = k' then some v else lookupKey k rest

/-- One conditional parameter assignment
`if (guard(options.x)) params[key] = ser(options.x)`: the singleton entry
when the optional value is present and its truthiness guard holds, else
nothing. -/
def optEntry {α β : Type} (key : String) (v : Option α) (t : α → Bool) (ser : α → β) :
    List (String × β) :=
  match v with
  | some x => if t x then [(key, ser x)] else []
  | none => []

/-- What `optEntry` contributes under its own key. -/
def optLookup {α β : Type} (v : Option α) (t : α → Bool) (ser : α → β) : Option β :=
  match v with
  | some x => if t x then some (ser x) else none
  | none => none

/-- JS truthiness of a string: nonempty. -/
def strTruthy (s : List Char) : Bool := s != []

/-- JS truthiness of a number: nonzero. -/
def numTruthy (n : Int) : Bool := n != 0

/-- Guard modelling an `!== undefined` test: any present value passes. -/
def defGuard {α : Type} : α → Bool := fun _ => true

/-- JS truthiness of an array combined with `length > 0`
(`options.x && options.x.length > 0`). -/
def listTruthy (xs : List (List Char)) : Bool := xs.length != 0

/-! ### Dates -/

/-- A JavaScript `Date`, modelled by its UTC components: a `Date` is an
absolute instant, so any timezone offset of the constructing literal is
already folded into these UTC fields. -/
structure JSDate where
  year : Nat
  month : Nat
  day : Nat
  hour : Nat
  minute : Nat
  second : Nat
  millis : Nat
deriving DecidableEq

def pad2 (n : Nat) : List Char :=
  [Nat.digitChar (n / 10 % 10), Nat.digitChar (n % 10)]

def pad3 (n : Nat) : List Char :=
  [Nat.digitChar (n / 100 % 10), Nat.digitChar (n / 10 % 10), Nat.digitChar (n % 10)]

def pad4 (n : Nat) : List Char :=
  [Nat.digitChar (n / 1000 % 10), Nat.digitChar (n / 100 % 10),
    Nat.digitChar (n / 10 % 10), Nat.digitChar (n % 10)]

/-- `Date.prototype.toISOString` (years 0–9999):
`YYYY-MM-DDTHH:mm:ss.sssZ` over the UTC components. -/
def toISOString (d : JSDate) : List Char :=
  pad4 d.year ++ '-' :: pad2 d.month ++ '-' :: pad2 d.day
    ++ 'T' :: pad2 d.hour ++ ':' :: pad2 d.minute ++ ':' :: pad2 d.second
    ++ '.' :: pad3 d.millis ++ ['Z']

/-- `s.split('T')[0]`: the segment before the first `'T'`. -/
def beforeT (s : List Char) : List Char := s.takeWhile (fun c => c != 'T')

/-- `date.toISOString().split('T')[0]`. -/
def isoDateOnly (d : JSDate) : List Char := beforeT (toISOString d)

/-- A `Date | string` filter value. -/
inductive DateOrString where
  | date (d : JSDate)
  | str (s : List Char)
deriving DecidableEq

/-- JS truthiness of a `Date | string` value: objects are truthy, a string
iff nonempty. -/
def dosTruthy : DateOrString → Bool
  | .date _ => true
  | .str s => s != []

/-- `value instanceof Date ? value.toISOString().split('T')[0] : value`. -/
def dosSerialize : DateOrString → List Char
  | .date d => isoDateOnly d
  | .str s => s

/-- Shape check: exactly `YYYY-MM-DD` (ten characters, digits with hyphens
at positions 4 and 7). -/
def isDateOnlyShape : List Char → Bool
  | [y1, y2, y3, y4, h1, m1, m2, h2, d1, d2] =>
    y1.isDigit && y2.isDigit && y3.isDigit && y4.isDigit && (h1 == '-')
      && m1.isDigit && m2.isDigit && (h2 == '-') && d1.isDigit && d2.isDigit
  | _ => false

/-! ### Endpoint methods: parameter construction -/

/-- `ArchiveStructureOptions` (an omitted `options` argument behaves as the
all-absent record). -/
structure ArchiveStructureOptions where
  parentFolderId : Option Int := none
deriving DecidableEq

/-- `getArchiveStructure` parameter construction (identical in both client
variants): `if (options?.parentFolderId) params['parent-folder-id'] = …`. -/
def archiveStructureParams (o : ArchiveStructureOptions) : List (String × JsVal) :=
  optEntry "parent-folder-id" o.parentFolderId numTruthy JsVal.num

/-- `DocumentListOptions`. -/
structure DocumentListOptions where
  folderId : Int
  includedMetadataKeys : Option (List Char) := none
  excludedMetadataKeys : Option (List Char) := none
  withAutoexportStatus : Option Bool := none
  filterDateCreatedAfter : Option DateOrString := none
  subfoldersRecursive : Option Bool := none
deriving DecidableEq

/-- `listDocuments` parameter construction, axios variant
(key `excluded-metadata-keys`). -/
def listDocumentsParamsAxios (o : DocumentListOptions) : List (String × JsVal) :=
  [("folder-id", JsVal.num o.folderId)]
  ++ optEntry "included-metadata-keys" o.includedMetadataKeys strTruthy JsVal.str
  ++ optEntry "excluded-metadata-keys" o.excludedMetadataKeys strTruthy JsVal.str
  ++ optEntry "with-autoexport-status" o.withAutoexportStatus defGuard JsVal.bool
  ++ optEntry "filter-date-created-after" o.filterDateCreatedAfter dosTruthy
      (fun v => JsVal.str (dosSerialize v))
  ++ optEntry "subfolders-recursive" o.subfoldersRecursive defGuard JsVal.bool

/-- `listDocuments` parameter construction, fetch variant (`src/client.ts`):
identical to the axios variant except for the misspelled wire key
`excluded-matadata-keys`. -/
def listDocumentsParamsFetch (o : DocumentListOptions) : List (String × JsVal) :=
  [("folder-id", JsVal.num o.folderId)]
  ++ optEntry "included-metadata-keys" o.includedMetadataKeys strTruthy JsVal.str
  ++ optEntry "excluded-matadata-keys" o.excludedMetadataKeys strTruthy JsVal.str
  ++ optEntry "with-autoexport-status" o.withAutoexportStatus defGuard JsVal.bool
  ++ optEntry "filter-date-created-after" o.filterDateCreatedAfter dosTruthy
      (fun v => JsVal.str (dosSerialize v))
  ++ optEntry "subfolders-recursive" o.subfoldersRecursive defGuard JsVal.bool

/-- `SearchOptions` (axios variant only). -/
structure SearchOptions where
  paginationSize : Option Int := none
  paginationPage : Option Int := none
  fulltextAll : Option (List Char) := none
  fulltextOne : Option (List Char) := none
  fulltextNone : Option (List Char) := none
  fromDate : Option DateOrString := none
  toDate : Option DateOrString := none
  followupTerms : Option (List Char) := none
  noteTerms : Option (List Char) := none
  keywordTerms : Option (List Char) := none
  stampsInclusive : Option (List Char) := none
  stampsExclusive : Option (List Char) := none
  documentNameTerms : Option (List Char) := none
  folderNameTerms : Option (List Char) := none
  location : Option (List Char) := none
  locationFolderId : Option Int := none
  recursive : Option Bool := none
  archiverId : Option Int := none
  workflowName : Option (List Char) := none
  workflowState : Option (List Char) := none
  documentType : Option (List Char) := none
  includeTrash : Option Bool := none
  externalId : Option (List Char) := none
  externalMetadata : Option (List Char) := none
deriving DecidableEq

/-- `search` parameter construction: one guarded entry per optional filter,
in source order. -/
def searchParams (o : SearchOptions) : List (String × JsVal) :=
  optEntry "pagination-size" o.paginationSize defGuard JsVal.num
  ++ optEntry "pagination-page" o.paginationPage defGuard JsVal.num
  ++ optEntry "fulltext-all" o.fulltextAll strTruthy JsVal.str
  ++ optEntry "fulltext-one" o.fulltextOne strTruthy JsVal.str
  ++ optEntry "fulltext-none" o.fulltextNone strTruthy JsVal.str
  ++ optEntry "from-date" o.fromDate dosTruthy (fun v => JsVal.str (dosSerialize v))
  ++ optEntry "to-date" o.toDate dosTruthy (fun v => JsVal.str (dosSerialize v))
  ++ optEntry "followup-terms" o.followupTerms strTruthy JsVal.str
  ++ optEntry "note-terms" o.noteTerms strTruthy JsVal.str
  ++ optEntry "keyword-terms" o.keywordTerms strTruthy JsVal.str
  ++ optEntry "stamps-inclusive" o.stampsInclusive strTruthy JsVal.str
  ++ optEntry "stamps-exclusive" o.stampsExclusive strTruthy JsVal.str
  ++ optEntry "document-name-terms" o.documentNameTerms strTruthy JsVal.str
  ++ optEntry "folder-name-terms" o.folderNameTerms strTruthy JsVal.str
  ++ optEntry "location" o.location strTruthy JsVal.str
  ++ optEntry "location-folder-id" o.locationFolderId defGuard JsVal.num
  ++ optEntry "recursive" o.recursive defGuard JsVal.bool
  ++ optEntry "archiver-id" o.archiverId defGuard JsVal.num
  ++ optEntry "workflow-name" o.workflowName strTruthy JsVal.str
  ++ optEntry "workflow-state" o.workflowState strTruthy JsVal.str
  ++ optEntry "document-type" o.documentType strTruthy JsVal.str
  ++ optEntry "include-trash" o.includeTrash defGuard JsVal.bool
  ++ optEntry "external-id" o.externalId strTruthy JsVal.str
  ++ optEntry "external-metadata" o.externalMetadata strTruthy JsVal.str

/-! ### File upload: multipart form construction -/

/-- A multipart form-part value. -/
inductive FormVal where
  | file (data : List Nat) (name : List Char)
  | text (s : List Char)
deriving DecidableEq

/-- `FileUploadOptions`. -/
structure FileUploadOptions where
  fileData : List Nat
  fileName : List Char
  targetMandatorName : Option (List Char) := none
  targetFolderPath : Option (List Char) := none
  targetFolderId : Option Int := none
  targetDocumentName : Option (List Char) := none
  keywords : Option (List (List Char)) := none
  documentTypes : Option (List (List Char)) := none
  externalId : Option (List Char) := none
  externalMetadata : Option (List (String × List Char)) := none
  emailImportOrder : Option (List Char) := none
  forceNewDocument : Option Bool := none
deriving DecidableEq

/-- `.toString()` on a boolean. -/
def boolStr : Bool → List Char
  | true => "true".data
  | false => "false".data

/-- `array.join(',')`. -/
def joinComma (xs : List (List Char)) : List Char := List.intercalate [','] xs

/-- Model of `JSON.stringify` on a string-to-string record (escaping quote
and backslash; other escapes are not exercised by this client). -/
def jsonQuote (s : List Char) : List Char :=
  '"' :: (s.map (fun c =>
    if c = '"' then ['\\', '"'] else if c = '\\' then ['\\', '\\'] else [c])).flatten ++ ['"']

def jsonStringifyRecord (m : List (String × List Char)) : List Char :=
  '\x7b' :: (List.intercalate [','] (m.map
    (fun kv => jsonQuote kv.1.data ++ ':' :: jsonQuote kv.2))) ++ ['\x7d']

/-- `uploadFile` multipart body construction (identical in both variants):
the required `uploadData` file part, then one part per optional field that
passes its guard; note the wire name `externalMetadatas`. -/
def uploadFormParts (o : FileUploadOptions) : List (String × FormVal) :=
  ("uploadData", FormVal.file o.fileData o.fileName)
  :: (optEntry "targetMandatorName" o.targetMandatorName strTruthy FormVal.text
  ++ optEntry "targetFolderPath" o.targetFolderPath strTruthy FormVal.text
  ++ optEntry "targetFolderId" o.targetFolderId numTruthy (fun n => FormVal.text (intStr n))
  ++ optEntry "targetDocumentName" o.targetDocumentName strTruthy FormVal.text
  ++ optEntry "keywords" o.keywords listTruthy (fun ks => FormVal.text (joinComma ks))
  ++ optEntry "documentTypes" o.documentTypes listTruthy (fun ks => FormVal.text (joinComma ks))
  ++ optEntry "externalId" o.externalId strTruthy FormVal.text
  ++ optEntry "externalMetadatas" o.externalMetadata defGuard
      (fun m => FormVal.text (jsonStringifyRecord m))
  ++ optEntry "emailImportOrder" o.emailImportOrder strTruthy FormVal.text
  ++ optEntry "forceNewDocument" o.forceNewDocument defGuard
      (fun b => FormVal.text (boolStr b)))

/-! ### Response interpretation and error normalization -/

/-- Minimal JSON value model for parsed response bodies. -/
inductive Json where
  | str (s : List Char)
  | num (n : Int)
  | bool (b : Bool)
  | null
  | obj (fields : List (String × Json))
  | arr (elems : List Json)

/-- An HTTP response as observed through the fetch API. -/
structure HttpResponse where
  status : Nat
  statusText : List Char
  contentLength : Option (List Char)
  contentType : Option (List Char)
  body : List Char

/-- `Response.ok`: status in the range 200–299. -/
def respOk (r : HttpResponse) : Bool := decide (200 ≤ r.status ∧ r.status ≤ 299)

/-- `contentType?.includes('application/json')`. -/
def ctIncludesJson : Option (List Char) → Bool
  | some ct => containsSub ("application/json".data) ct
  | none => false

/-- What the fetch variant's `request` returns on success. -/
inductive FetchResult where
  | emptyObj
  | json (j : Json)
  | text (s : List Char)

/-- The outcome of the fetch variant's `request`. -/
inductive FetchOutcome where
  | success (v : FetchResult)
  | failure (message : List Char) (statusCode : Option Nat) (responseBody : Option (List Char))

/-- The response-interpretation path of the fetch variant's `request`;
`parseJson` abstracts the platform's `response.json()` (its failure is
caught and rethrown as a `Network error` with no status). -/
def handleResponseFetch (parseJson : List Char → Except (List Char) Json)
    (r : HttpResponse) : FetchOutcome :=
  if !respOk r then
    .failure (("API request failed: ".data) ++ r.statusText) (some r.status) (some r.body)
  else if r.contentLength == some ("0".data) || r.status == 204 then
    .success .emptyObj
  else if ctIncludesJson r.contentType then
    match parseJson r.body with
    | .ok j => .success (.json j)
    | .error e => .failure (("Network error: ".data) ++ e) none none
  else
    .success (.text r.body)

/-- The shape of an axios error as read by the axios variant's catch block. -/
structure AxiosErrorShape where
  isAxiosError : Bool
  message : List Char
  responseStatus : Option Nat
  responseData : Option Json

/-- The `DocboxError` fields produced by the axios variant. -/
structure NormalizedError where
  message : List Char
  statusCode : Option Nat
  responseBody : Option Json

/-- JS truthiness of a JSON value. -/
def jsonTruthy : Json → Bool
  | .str s => s != []
  | .num n => n != 0
  | .bool b => b
  | .null => false
  | .obj _ => true
  | .arr _ => true

/-- JS string coercion of a JSON value (arrays approximated by the empty
string; no claim depends on that case). -/
def jsonCoerceString : Json → List Char
  | .str s => s
  | .num n => intStr n
  | .bool true => "true".data
  | .bool false => "false".data
  | .null => "null".data
  | .obj _ => "[object Object]".data
  | .arr _ => []

/-- `error.response?.data?.message`. -/
def dataMessage : Option Json → Option Json
  | some (.obj fields) => lookupKey "message" fields
  | _ => none

/-- The catch block of the axios variant's `request`:
`new DocboxError(error.response?.data?.message || error.message,
error.response?.status, error.response?.data)` for axios errors, else
`new DocboxError(error.message, undefined, error)`. -/
def normalizeAxiosError (e : AxiosErrorShape) : NormalizedError :=
  if e.isAxiosError then
    { message :=
        match dataMessage e.responseData with
        | some v => if jsonTruthy v then jsonCoerceString v else e.message
        | none => e.message
      statusCode := e.responseStatus
      responseBody := e.responseData }
  else
    { message := e.message, statusCode := none, responseBody := none }

/-- The raw text of the scenario-C response body. -/
def notFoundBody : List Char := "\x7b\"message\":\"not found\"\x7d".data

/-! ### Lookup lemmas for the parameter builders -/

theorem or_some_left {α : Type} (a : α) (o : Option α) : Option.or (some a) o = some a := rfl

theorem lookupKey_append {α : Type} (k : String) (a b : List (String × α)) :
    lookupKey k (a ++ b) = Option.or (lookupKey k a) (lookupKey k b) := by
  induction a with
  | nil => simp [lookupKey]
  | cons kv rest ih =>
    obtain ⟨k', v⟩ := kv
    by_cases h : k = k'
    · simp [lookupKey, h, or_some_left]
    · simp [lookupKey, h, ih]

theorem lookupKey_optEntry {α β : Type} (k key : String) (v : Option α)
    (t : α → Bool) (ser : α → β) :
    lookupKey k (optEntry key v t ser) = if k = key then optLookup v t ser else none := by
  cases v with
  | none => simp [optEntry, optLookup, lookupKey]
  | some x =>
    cases htx : t x with
    | false => simp [optEntry, optLookup, lookupKey, htx]
    | true => simp [optEntry, optLookup, lookupKey, htx]

theorem optLookup_defGuard {α β : Type} (v : Option α) (ser : α → β) :
    optLookup v defGuard ser = v.map ser := by
  cases v <;> simp [optLookup, defGuard]

theorem archive_lk_parentFolderId (o : ArchiveStructureOptions) :
    lookupKey "parent-folder-id" (archiveStructureParams o)
      = optLookup o.parentFolderId numTruthy JsVal.num := by
  simp [archiveStructureParams, lookupKey_optEntry]

theorem listAx_lk_folderId (o : DocumentListOptions) :
    lookupKey "folder-id" (listDocumentsParamsAxios o) = some (JsVal.num o.folderId) := by
  simp [listDocumentsParamsAxios, lookupKey_append, lookupKey_optEntry, lookupKey,
    or_some_left]

theorem listAx_lk_included (o : DocumentListOptions) :
    lookupKey "included-metadata-keys" (listDocumentsParamsAxios o)
      = optLookup o.includedMetadataKeys strTruthy JsVal.str := by
  simp [listDocumentsParamsAxios, lookupKey_append, lookupKey_optEntry, lookupKey,
    Option.or_none, Option.none_or]

theorem listAx_lk_excluded (o : DocumentListOptions) :
    lookupKey "excluded-metadata-keys" (listDocumentsParamsAxios o)
      = optLookup o.excludedMetadataKeys strTruthy JsVal.str := by
  simp [listDocumentsParamsAxios, lookupKey_append, lookupKey_optEntry, lookupKey,
    Option.or_none, Option.none_or]

theorem listAx_lk_autoexport (o : DocumentListOptions) :
    lookupKey "with-autoexport-status" (listDocumentsParamsAxios o)
      = o.withAutoexportStatus.map JsVal.bool := by
  simp [listDocumentsParamsAxios, lookupKey_append, lookupKey_optEntry, lookupKey,
    Option.or_none, Option.none_or, optLookup_defGuard]

theorem listAx_lk_filterDate (o : DocumentListOptions) :
    lookupKey "filter-date-created-after" (listDocumentsParamsAxios o)
      = optLookup o.filterDateCreatedAfter dosTruthy (fun v => JsVal.str (dosSerialize v)) := by
  simp [listDocumentsParamsAxios, lookupKey_append, lookupKey_optEntry, lookupKey,
    Option.or_none, Option.none_or]

theorem listAx_lk_subfolders (o : DocumentListOptions) :
    lookupKey "subfolders-recursive" (listDocumentsParamsAxios o)
      = o.subfoldersRecursive.map JsVal.bool := by
  simp [listDocumentsParamsAxios, lookupKey_append, lookupKey_optEntry, lookupKey,
    Option.or_none, Option.none_or, optLookup_defGuard]

theorem search_lk_paginationSize (o : SearchOptions) :
    lookupKey "pagination-size" (searchParams o) = o.paginationSize.map JsVal.num := by
  simp [searchParams, lookupKey_append, lookupKey_optEntry, Option.or_none,
    Option.none_or, optLookup_defGuard]

theorem search_lk_paginationPage (o : SearchOptions) :
    lookupKey "pagination-page" (searchParams o) = o.paginationPage.map JsVal.num := by
  simp [searchParams, lookupKey_append, lookupKey_optEntry, Option.or_none,
    Option.none_or, optLookup_defGuard]

theorem search_lk_fulltextAll (o : SearchOptions) :
    lookupKey "fulltext-all" (searchParams o) = optLookup o.fulltextAll strTruthy JsVal.str := by
  simp [searchParams, lookupKey_append, lookupKey_optEntry, Option.or_none,
    Option.none_or, optLookup_defGuard]

theorem search_lk_fulltextOne (o : SearchOptions) :
    lookupKey "fulltext-one" (searchParams o) = optLookup o.fulltextOne strTruthy JsVal.str := by
  simp [searchParams, lookupKey_append, lookupKey_optEntry, Option.or_none,
    Option.none_or, optLookup_defGuard]

theorem search_lk_fulltextNone (o : SearchOptions) :
    lookupKey "fulltext-none" (searchParams o) = optLookup o.fulltextNone strTruthy JsVal.str := by
  simp [searchParams, lookupKey_append, lookupKey_optEntry, Option.or_none,
    Option.none_or, optLookup_defGuard]

theorem search_lk_fromDate (o : SearchOptions) :
    lookupKey "from-date" (searchParams o) = optLookup o.fromDate dosTruthy (fun v => JsVal.str (dosSerialize v)) := by
  simp [searchParams, lookupKey_append, lookupKey_optEntry, Option.or_none,
    Option.none_or, optLookup_defGuard]

theorem search_lk_toDate (o : SearchOptions) :
    lookupKey "to-date" (searchParams o) = optLookup o.toDate dosTruthy (fun v => JsVal.str (dosSerialize v)) := by
  simp [searchParams, lookupKey_append, lookupKey_optEntry, Option.or_none,
    Option.none_or, optLookup_defGuard]

theorem search_lk_followupTerms (o : SearchOptions) :
    lookupKey "followup-terms" (searchParams o) = optLookup o.followupTerms strTruthy JsVal.str := by
  simp [searchParams, lookupKey_append, lookupKey_optEntry, Option.or_none,
    Option.none_or, optLookup_defGuard]

theorem search_lk_noteTerms (o : SearchOptions) :
    lookupKey "note-terms" (searchParams o) = optLookup o.noteTerms strTruthy JsVal.str := by
  simp [searchParams, lookupKey_append, lookupKey_optEntry, Option.or_none,
    Option.none_or, optLookup_defGuard]

theorem search_lk_keywordTerms (o : SearchOptions) :
    lookupKey "keyword-terms" (searchParams o) = optLookup o.keywordTerms strTruthy JsVal.str := by
  simp [searchParams, lookupKey_append, lookupKey_optEntry, Option.or_none,
    Option.none_or, optLookup_defGuard]

theorem search_lk_stampsInclusive (o : SearchOptions) :
    lookupKey "stamps-inclusive" (searchParams o) = optLookup o.stampsInclusive strTruthy JsVal.str := by
  simp [searchParams, lookupKey_append, lookupKey_optEntry, Option.or_none,
    Option.none_or, optLookup_defGuard]

theorem search_lk_stampsExclusive (o : SearchOptions) :
    lookupKey "stamps-exclusive" (searchParams o) = optLookup o.stampsExclusive strTruthy JsVal.str := by
  simp [searchParams, lookupKey_append, lookupKey_optEntry, Option.or_none,
    Option.none_or, optLookup_defGuard]

theorem search_lk_documentNameTerms (o : SearchOptions) :
    lookupKey "document-name-terms" (searchParams o) = optLookup o.documentNameTerms strTruthy JsVal.str := by
  simp [searchParams, lookupKey_append, lookupKey_optEntry, Option.or_none,
    Option.none_or, optLookup_defGuard]

theorem search_lk_folderNameTerms (o : SearchOptions) :
    lookupKey "folder-name-terms" (searchParams o) = optLookup o.folderNameTerms strTruthy JsVal.str := by
  simp [searchParams, lookupKey_append, lookupKey_optEntry, Option.or_none,
    Option.none_or, optLookup_defGuard]

theorem search_lk_location (o : SearchOptions) :
    lookupKey "location" (searchParams o) = optLookup o.location strTruthy JsVal.str := by
  simp [searchParams, lookupKey_append, lookupKey_optEntry, Option.or_none,
    Option.none_or, optLookup_defGuard]

theorem search_lk_locationFolderId (o : SearchOptions) :
    lookupKey "location-folder-id" (searchParams o) = o.locationFolderId.map JsVal.num := by
  simp [searchParams, lookupKey_append, lookupKey_optEntry, Option.or_none,
    Option.none_or, optLookup_defGuard]

theorem search_lk_recursive (o : SearchOptions) :
    lookupKey "recursive" (searchParams o) = o.recursive.map JsVal.bool := by
  simp [searchParams, lookupKey_append, lookupKey_optEntry, Option.or_none,
    Option.none_or, optLookup_defGuard]

theorem search_lk_archiverId (o : SearchOptions) :
    lookupKey "archiver-id" (searchParams o) = o.archiverId.map JsVal.num := by
  simp [searchParams, lookupKey_append, lookupKey_optEntry, Option.or_none,
    Option.none_or, optLookup_defGuard]

theorem search_lk_workflowName (o : SearchOptions) :
    lookupKey "workflow-name" (searchParams o) = optLookup o.workflowName strTruthy JsVal.str := by
  simp [searchParams, lookupKey_append, lookupKey_optEntry, Option.or_none,
    Option.none_or, optLookup_defGuard]

theorem search_lk_workflowState (o : SearchOptions) :
    lookupKey "workflow-state" (searchParams o) = optLookup o.workflowState strTruthy JsVal.str := by
  simp [searchParams, lookupKey_append, lookupKey_optEntry, Option.or_none,
    Option.none_or, optLookup_defGuard]

theorem search_lk_documentType (o : SearchOptions) :
    lookupKey "document-type" (searchParams o) = optLookup o.documentType strTruthy JsVal.str := by
  simp [searchParams, lookupKey_append, lookupKey_optEntry, Option.or_none,
    Option.none_or, optLookup_defGuard]

theorem search_lk_includeTrash (o : SearchOptions) :
    lookupKey "include-trash" (searchParams o) = o.includeTrash.map JsVal.bool := by
  simp [searchParams, lookupKey_append, lookupKey_optEntry, Option.or_none,
    Option.none_or, optLookup_defGuard]

theorem search_lk_externalId (o : SearchOptions) :
    lookupKey "external-id" (searchParams o) = optLookup o.externalId strTruthy JsVal.str := by
  simp [searchParams, lookupKey_append, lookupKey_optEntry, Option.or_none,
    Option.none_or, optLookup_defGuard]

theorem search_lk_externalMetadata (o : SearchOptions) :
    lookupKey "external-metadata" (searchParams o) = optLookup o.externalMetadata strTruthy JsVal.str := by
  simp [searchParams, lookupKey_append, lookupKey_optEntry, Option.or_none,
    Option.none_or, optLookup_defGuard]

theorem upload_lk_targetMandatorName (o : FileUploadOptions) :
    lookupKey "targetMandatorName" (uploadFormParts o) = optLookup o.targetMandatorName strTruthy FormVal.text := by
  simp [uploadFormParts, lookupKey, lookupKey_append, lookupKey_optEntry, Option.or_none,
    Option.none_or, optLookup_defGuard]

theorem upload_lk_targetFolderPath (o : FileUploadOptions) :
    lookupKey "targetFolderPath" (uploadFormParts o) = optLookup o.targetFolderPath strTruthy FormVal.text := by
  simp [uploadFormParts, lookupKey, lookupKey_append, lookupKey_optEntry, Option.or_none,
    Option.none_or, optLookup_defGuard]

theorem upload_lk_targetFolderId (o : FileUploadOptions) :
    lookupKey "targetFolderId" (uploadFormParts o) = optLookup o.targetFolderId numTruthy (fun n => FormVal.text (intStr n)) := by
  simp [uploadFormParts, lookupKey, lookupKey_append, lookupKey_optEntry, Option.or_none,
    Option.none_or, optLookup_defGuard]

theorem upload_lk_targetDocumentName (o : FileUploadOptions) :
    lookupKey "targetDocumentName" (uploadFormParts o) = optLookup o.targetDocumentName strTruthy FormVal.text := by
  simp [uploadFormParts, lookupKey, lookupKey_append, lookupKey_optEntry, Option.or_none,
    Option.none_or, optLookup_defGuard]

theorem upload_lk_keywords (o : FileUploadOptions) :
    lookupKey "keywords" (uploadFormParts o) = optLookup o.keywords listTruthy (fun ks => FormVal.text (joinComma ks)) := by
  simp [uploadFormParts, lookupKey, lookupKey_append, lookupKey_optEntry, Option.or_none,
    Option.none_or, optLookup_defGuard]

theorem upload_lk_documentTypes (o : FileUploadOptions) :
    lookupKey "documentTypes" (uploadFormParts o) = optLookup o.documentTypes listTruthy (fun ks => FormVal.text (joinComma ks)) := by
  simp [uploadFormParts, lookupKey, lookupKey_append, lookupKey_optEntry, Option.or_none,
    Option.none_or, optLookup_defGuard]

theorem upload_lk_externalId (o : FileUploadOptions) :
    lookupKey "externalId" (uploadFormParts o) = optLookup o.externalId strTruthy FormVal.text := by
  simp [uploadFormParts, lookupKey, lookupKey_append, lookupKey_optEntry, Option.or_none,
    Option.none_or, optLookup_defGuard]

theorem upload_lk_externalMetadata (o : FileUploadOptions) :
    lookupKey "externalMetadatas" (uploadFormParts o) = o.externalMetadata.map (fun m => FormVal.text (jsonStringifyRecord m)) := by
  simp [uploadFormParts, lookupKey, lookupKey_append, lookupKey_optEntry, Option.or_none,
    Option.none_or, optLookup_defGuard]

theorem upload_lk_emailImportOrder (o : FileUploadOptions) :
    lookupKey "emailImportOrder" (uploadFormParts o) = optLookup o.emailImportOrder strTruthy FormVal.text := by
  simp [uploadFormParts, lookupKey, lookupKey_append, lookupKey_optEntry, Option.or_none,
    Option.none_or, optLookup_defGuard]

theorem upload_lk_forceNewDocument (o : FileUploadOptions) :
    lookupKey "forceNewDocument" (uploadFormParts o) = o.forceNewDocument.map (fun b => FormVal.text (boolStr b)) := by
  simp [uploadFormParts, lookupKey, lookupKey_append, lookupKey_optEntry, Option.or_none,
    Option.none_or, optLookup_defGuard]

theorem upload_head (o : FileUploadOptions) :
    (uploadFormParts o).head? = some ("uploadData", FormVal.file o.fileData o.fileName) := rfl

/-- The one key on which the two `listDocuments` builders disagree: the
fetch variant misspells `excluded-metadata-keys`. -/
def renameExcl (k : String) : String :=
  if k = "excluded-metadata-keys" then "excluded-matadata-keys" else k

theorem map_fst_optEntry {α β : Type} (f : String → String) (key : String) (v : Option α)
    (t : α → Bool) (ser : α → β) :
    (optEntry key v t ser).map (fun kv => (f kv.1, kv.2)) = optEntry (f key) v t ser := by
  cases v with
  | none => rfl
  | some x => cases htx : t x <;> simp [optEntry, htx]

/-- C10 (amended): for every `DocumentListOptions` value the fetch-variant
`listDocuments` builds the same query mapping as the axios variant except
that the key `excluded-metadata-keys` is spelled `excluded-matadata-keys`;
all other keys and all serialized values coincide. -/
theorem C10_list_documents_variants (o : DocumentListOptions) :
    listDocumentsParamsFetch o
      = (listDocumentsParamsAxios o).map (fun kv => (renameExcl kv.1, kv.2)) := by
  simp only [listDocumentsParamsFetch, listDocumentsParamsAxios, List.map_append,
    List.map_cons, List.map_nil, map_fst_optEntry]
  simp [renameExcl]

/-- C10 fails as stated: with `excludedMetadataKeys` supplied, the two
variants build different mappings (misspelled key in the fetch variant). -/
theorem C10_counterexample :
    listDocumentsParamsFetch { folderId := 5, excludedMetadataKeys := some ("k".data) }
      ≠ listDocumentsParamsAxios { folderId := 5, excludedMetadataKeys := some ("k".data) }
    ∧ lookupKey "excluded-matadata-keys"
        (listDocumentsParamsFetch { folderId := 5, excludedMetadataKeys := some ("k".data) })
      = some (JsVal.str ("k".data))
    ∧ lookupKey "excluded-metadata-keys"
        (listDocumentsParamsFetch { folderId := 5, excludedMetadataKeys := some ("k".data) })
      = none := by decide

/-! ### Date serialization lemmas -/

/-- The date half of `toISOString`: `YYYY-MM-DD` over the UTC fields. -/
def datePart (d : JSDate) : List Char :=
  pad4 d.year ++ '-' :: pad2 d.month ++ '-' :: pad2 d.day

theorem digitChar_mod_isDigit (n : Nat) : (Nat.digitChar (n % 10)).isDigit = true := by
  have h : n % 10 < 10 := Nat.mod_lt _ (by omega)
  have hall : ∀ m, m < 10 → (Nat.digitChar m).isDigit = true := by decide
  exact hall _ h

theorem isDigit_bne {c t : Char} (ht : t.isDigit = false) (h : c.isDigit = true) :
    (c != t) = true := by
  rcases eq_or_ne c t with rfl | hne
  · rw [h] at ht
    exact absurd ht (by decide)
  · simpa using hne

theorem mem_pad4_isDigit (n : Nat) : ∀ x ∈ pad4 n, x.isDigit = true := by
  intro x hx
  simp only [pad4, List.mem_cons, List.not_mem_nil, or_false] at hx
  rcases hx with rfl | rfl | rfl | rfl <;> exact digitChar_mod_isDigit _

theorem mem_pad2_isDigit (n : Nat) : ∀ x ∈ pad2 n, x.isDigit = true := by
  intro x hx
  simp only [pad2, List.mem_cons, List.not_mem_nil, or_false] at hx
  rcases hx with rfl | rfl <;> exact digitChar_mod_isDigit _

theorem datePart_chars (d : JSDate) :
    ∀ x ∈ datePart d, x.isDigit = true ∨ x = '-' := by
  intro x hx
  simp only [datePart, List.mem_append, List.mem_cons] at hx
  rcases hx with (h | rfl | h) | rfl | h
  · exact Or.inl (mem_pad4_isDigit _ _ h)
  · exact Or.inr rfl
  · exact Or.inl (mem_pad2_isDigit _ _ h)
  · exact Or.inr rfl
  · exact Or.inl (mem_pad2_isDigit _ _ h)

theorem takeWhile_append_cons {p : Char → Bool} (a : List Char) (c : Char) (b : List Char)
    (ha : ∀ x ∈ a, p x = true) (hc : p c = false) :
    List.takeWhile p (a ++ c :: b) = a := by
  induction a with
  | nil => simp [List.takeWhile_cons, hc]
  | cons x a' ih =>
    rw [List.cons_append, List.takeWhile_cons, if_pos (ha x (List.mem_cons_self x a')),
      ih (fun y hy => ha y (List.mem_cons_of_mem x hy))]

theorem isoDateOnly_eq (d : JSDate) : isoDateOnly d = datePart d := by
  have hsplit : toISOString d = datePart d
      ++ 'T' :: (pad2 d.hour ++ ':' :: pad2 d.minute ++ ':' :: pad2 d.second
        ++ '.' :: pad3 d.millis ++ ['Z']) := by
    simp [toISOString, datePart, List.append_assoc]
  rw [isoDateOnly, hsplit, beforeT]
  refine takeWhile_append_cons _ _ _ (fun x hx => ?_) (by decide)
  rcases datePart_chars d x hx with h | rfl
  · exact isDigit_bne (by decide) h
  · decide

theorem datePart_shape (d : JSDate) : isDateOnlyShape (datePart d) = true := by
  simp only [datePart, pad4, pad2, List.cons_append, List.nil_append]
  simp [isDateOnlyShape, digitChar_mod_isDigit]

theorem notMem_datePart (d : JSDate) (t : Char) (ht : t.isDigit = false) (hh : t ≠ '-') :
    t ∉ datePart d := by
  intro hm
  rcases datePart_chars d t hm with h | h
  · rw [h] at ht
    exact absurd ht (by decide)
  · exact hh h

/-- C5: a date-valued filter supplied as a `Date` always serializes to the
calendar-date string `YYYY-MM-DD` built from the UTC components — ten
characters, no `'T'`, no `':'`, independent of the time-of-day fields — and
that string is exactly what `listDocuments` and `search` place under their
date keys. -/
theorem C5_date_filters_date_only (d : JSDate)
    (_hy : d.year ≤ 9999) (_hm1 : 1 ≤ d.month) (_hm2 : d.month ≤ 12)
    (_hd1 : 1 ≤ d.day) (_hd2 : d.day ≤ 31) :
    isoDateOnly d = datePart d
    ∧ isDateOnlyShape (isoDateOnly d) = true
    ∧ 'T' ∉ isoDateOnly d
    ∧ ':' ∉ isoDateOnly d
    ∧ (∀ h mi s ms, isoDateOnly ⟨d.year, d.month, d.day, h, mi, s, ms⟩ = isoDateOnly d)
    ∧ (∀ o : DocumentListOptions,
        o.filterDateCreatedAfter = some (DateOrString.date d) →
        lookupKey "filter-date-created-after" (listDocumentsParamsAxios o)
          = some (JsVal.str (datePart d)))
    ∧ (∀ o : SearchOptions, o.fromDate = some (DateOrString.date d) →
        lookupKey "from-date" (searchParams o) = some (JsVal.str (datePart d))) := by
  refine ⟨isoDateOnly_eq d, ?_, ?_, ?_, ?_, ?_, ?_⟩
  · rw [isoDateOnly_eq]; exact datePart_shape d
  · rw [isoDateOnly_eq]; exact notMem_datePart d 'T' (by decide) (by decide)
  · rw [isoDateOnly_eq]; exact notMem_datePart d ':' (by decide) (by decide)
  · intro h mi s ms
    rw [isoDateOnly_eq, isoDateOnly_eq]
    rfl
  · intro o ho
    rw [listAx_lk_filterDate, ho]
    simp [optLookup, dosTruthy, dosSerialize, isoDateOnly_eq]
  · intro o ho
    rw [search_lk_fromDate, ho]
    simp [optLookup, dosTruthy, dosSerialize, isoDateOnly_eq]

theorem C5_date_filters_date_only_witness :
    isoDateOnly ⟨2024, 3, 7, 23, 59, 58, 999⟩ = "2024-03-07".data
    ∧ isDateOnlyShape (isoDateOnly ⟨2024, 3, 7, 23, 59, 58, 999⟩) = true := by
  have h := C5_date_filters_date_only ⟨2024, 3, 7, 23, 59, 58, 999⟩ (by decide) (by decide)
    (by decide) (by decide) (by decide)
  refine ⟨?_, h.2.1⟩
  rw [h.1]
  decide

/-! ### Remaining claims -/

/-- C2 (amended): constructing a client with base `https://host`, no port
and no cloud id, the axios variant targets
`https://host/api/v2/archivestructure` for `getArchiveStructure()` with an
empty query; the fetch variant instead applies the default port and targets
`https://host:8081/api/v2/archivestructure` (also with an empty query). -/
theorem C2_archive_structure_request :
    requestTargetAxios { baseUrl := "https://host".data, apiKey := "key".data }
        ("/archivestructure".data)
      = "https://host/api/v2/archivestructure".data
    ∧ serializeQuery (archiveStructureParams {}) = []
    ∧ requestTargetFetch { baseUrl := "https://host".data, apiKey := "key".data }
        ("/archivestructure".data)
      = "https://host:8081/api/v2/archivestructure".data := by decide

/-- C2 fails as stated on the fetch variant: the same configuration yields
the target with the default port `8081` inserted, not
`https://host/api/v2/archivestructure`. -/
theorem C2_fetch_counterexample :
    requestTargetFetch { baseUrl := "https://host".data, apiKey := "key".data }
        ("/archivestructure".data)
      ≠ "https://host/api/v2/archivestructure".data := by decide

/-- C4 (amended): an absent optional query parameter never appears in the
built query mapping (each equation instantiated at `none` yields `none`);
a supplied value appears exactly when it passes the option's guard —
unconditionally for the `!== undefined`-tested boolean, pagination,
location-folder and archiver options, and only when truthy (nonzero number,
nonempty string, truthy date-or-string) for the remaining options, so the
defined values `0` and `""` are omitted. -/
theorem C4_presence_iff_guard :
    (∀ o : ArchiveStructureOptions,
      lookupKey "parent-folder-id" (archiveStructureParams o)
        = optLookup o.parentFolderId numTruthy JsVal.num)
    ∧ (∀ o : DocumentListOptions,
        lookupKey "folder-id" (listDocumentsParamsAxios o) = some (JsVal.num o.folderId)
        ∧ lookupKey "included-metadata-keys" (listDocumentsParamsAxios o)
          = optLookup o.includedMetadataKeys strTruthy JsVal.str
        ∧ lookupKey "excluded-metadata-keys" (listDocumentsParamsAxios o)
          = optLookup o.excludedMetadataKeys strTruthy JsVal.str
        ∧ lookupKey "with-autoexport-status" (listDocumentsParamsAxios o)
          = o.withAutoexportStatus.map JsVal.bool
        ∧ lookupKey "filter-date-created-after" (listDocumentsParamsAxios o)
          = optLookup o.filterDateCreatedAfter dosTruthy (fun v => JsVal.str (dosSerialize v))
        ∧ lookupKey "subfolders-recursive" (listDocumentsParamsAxios o)
          = o.subfoldersRecursive.map JsVal.bool)
    ∧ (∀ o : SearchOptions,
        lookupKey "pagination-size" (searchParams o) = o.paginationSize.map JsVal.num
        ∧ lookupKey "pagination-page" (searchParams o) = o.paginationPage.map JsVal.num
        ∧ lookupKey "fulltext-all" (searchParams o) = optLookup o.fulltextAll strTruthy JsVal.str
        ∧ lookupKey "fulltext-one" (searchParams o) = optLookup o.fulltextOne strTruthy JsVal.str
        ∧ lookupKey "fulltext-none" (searchParams o) = optLookup o.fulltextNone strTruthy JsVal.str
        ∧ lookupKey "from-date" (searchParams o)
          = optLookup o.fromDate dosTruthy (fun v => JsVal.str (dosSerialize v))
        ∧ lookupKey "to-date" (searchParams o)
          = optLookup o.toDate dosTruthy (fun v => JsVal.str (dosSerialize v))
        ∧ lookupKey "followup-terms" (searchParams o) = optLookup o.followupTerms strTruthy JsVal.str
        ∧ lookupKey "note-terms" (searchParams o) = optLookup o.noteTerms strTruthy JsVal.str
        ∧ lookupKey "keyword-terms" (searchParams o) = optLookup o.keywordTerms strTruthy JsVal.str
        ∧ lookupKey "stamps-inclusive" (searchParams o)
          = optLookup o.stampsInclusive strTruthy JsVal.str
        ∧ lookupKey "stamps-exclusive" (searchParams o)
          = optLookup o.stampsExclusive strTruthy JsVal.str
        ∧ lookupKey "document-name-terms" (searchParams o)
          = optLookup o.documentNameTerms strTruthy JsVal.str
        ∧ lookupKey "folder-name-terms" (searchParams o)
          = optLookup o.folderNameTerms strTruthy JsVal.str
        ∧ lookupKey "location" (searchParams o) = optLookup o.location strTruthy JsVal.str
        ∧ lookupKey "location-folder-id" (searchParams o) = o.locationFolderId.map JsVal.num
        ∧ lookupKey "recursive" (searchParams o) = o.recursive.map JsVal.bool
        ∧ lookupKey "archiver-id" (searchParams o) = o.archiverId.map JsVal.num
        ∧ lookupKey "workflow-name" (searchParams o) = optLookup o.workflowName strTruthy JsVal.str
        ∧ lookupKey "workflow-state" (searchParams o)
          = optLookup o.workflowState strTruthy JsVal.str
        ∧ lookupKey "document-type" (searchParams o) = optLookup o.documentType strTruthy JsVal.str
        ∧ lookupKey "include-trash" (searchParams o) = o.includeTrash.map JsVal.bool
        ∧ lookupKey "external-id" (searchParams o) = optLookup o.externalId strTruthy JsVal.str
        ∧ lookupKey "external-metadata" (searchParams o)
          = optLookup o.externalMetadata strTruthy JsVal.str) :=
  ⟨fun o => archive_lk_parentFolderId o,
   fun o => ⟨listAx_lk_folderId o, listAx_lk_included o, listAx_lk_excluded o,
     listAx_lk_autoexport o, listAx_lk_filterDate o, listAx_lk_subfolders o⟩,
   fun o => ⟨search_lk_paginationSize o, search_lk_paginationPage o, search_lk_fulltextAll o,
     search_lk_fulltextOne o, search_lk_fulltextNone o, search_lk_fromDate o, search_lk_toDate o,
     search_lk_followupTerms o, search_lk_noteTerms o, search_lk_keywordTerms o,
     search_lk_stampsInclusive o, search_lk_stampsExclusive o, search_lk_documentNameTerms o,
     search_lk_folderNameTerms o, search_lk_location o, search_lk_locationFolderId o,
     search_lk_recursive o, search_lk_archiverId o, search_lk_workflowName o,
     search_lk_workflowState o, search_lk_documentType o, search_lk_includeTrash o,
     search_lk_externalId o, search_lk_externalMetadata o⟩⟩

/-- C4 fails as stated: the empty string is a defined, non-null value for
`location`, yet the built search query omits it. -/
theorem C4_counterexample :
    (({ location := some [] } : SearchOptions).location).isSome = true
    ∧ lookupKey "location" (searchParams { location := some [] }) = none := by decide

/-- C6: in the fetch variant's shared response handler, a non-2xx status
always yields the failure outcome carrying exactly that HTTP status, and a
2xx response with an empty body (content-length `"0"` or status 204)
always yields the empty success value, independently of the JSON decoder;
the axios variant's error normalization likewise preserves the response
status of an axios error. -/
theorem C6_status_and_empty_body
    (parseJson : List Char → Except (List Char) Json) (r : HttpResponse) :
    (respOk r = false →
      handleResponseFetch parseJson r
        = FetchOutcome.failure (("API request failed: ".data) ++ r.statusText)
            (some r.status) (some r.body))
    ∧ (respOk r = true → (r.contentLength = some ("0".data) ∨ r.status = 204) →
      handleResponseFetch parseJson r = FetchOutcome.success FetchResult.emptyObj)
    ∧ (∀ e : AxiosErrorShape, e.isAxiosError = true →
      (normalizeAxiosError e).statusCode = e.responseStatus) := by
  refine ⟨?_, ?_, ?_⟩
  · intro h
    simp [handleResponseFetch, h]
  · intro h he
    have hcond : (r.contentLength == some ("0".data) || r.status == 204) = true := by
      rcases he with he | he <;> simp [he]
    simp [handleResponseFetch, h, hcond]
  · intro e he
    simp [normalizeAxiosError, he]

theorem C6_status_and_empty_body_witness :
    handleResponseFetch (fun _ => Except.error [])
        ⟨500, "Server Error".data, none, none, []⟩
      = FetchOutcome.failure ("API request failed: Server Error".data) (some 500) (some [])
    ∧ handleResponseFetch (fun _ => Except.error [])
        ⟨204, "No Content".data, none, none, []⟩
      = FetchOutcome.success FetchResult.emptyObj := by
  have h1 := (C6_status_and_empty_body (fun _ => Except.error [])
    ⟨500, "Server Error".data, none, none, []⟩).1 (by decide)
  have h2 := (C6_status_and_empty_body (fun _ => Except.error [])
    ⟨204, "No Content".data, none, none, []⟩).2.1 (by decide) (Or.inr rfl)
  exact ⟨by rw [h1]; rfl, h2⟩

/-- C7 (amended): for a 404 response with JSON body
`{"message":"not found"}`, both variants fail with status code 404; the
axios variant's message is the body's `message` field, while the fetch
variant's message is derived from the HTTP status text and the raw body is
preserved in the error's response-body slot. -/
theorem C7_notfound_normalization (m : List Char)
    (parseJson : List Char → Except (List Char) Json) :
    normalizeAxiosError
        ⟨true, m, some 404, some (Json.obj [("message", Json.str ("not found".data))])⟩
      = ⟨"not found".data, some 404,
          some (Json.obj [("message", Json.str ("not found".data))])⟩
    ∧ handleResponseFetch parseJson ⟨404, "Not Found".data, none, none, notFoundBody⟩
      = FetchOutcome.failure ("API request failed: Not Found".data) (some 404)
          (some notFoundBody) :=
  ⟨rfl, rfl⟩

/-- C7 fails as stated on the fetch variant: its message is built from the
status text and does not mention the body's message at all. -/
theorem C7_fetch_counterexample :
    handleResponseFetch (fun _ => Except.error [])
        ⟨404, "Not Found".data, none, none, notFoundBody⟩
      = FetchOutcome.failure ("API request failed: Not Found".data) (some 404)
          (some notFoundBody)
    ∧ containsSub ("not found".data) ("API request failed: Not Found".data) = false :=
  ⟨rfl, by decide⟩

/-- C8 (amended): the built multipart request always starts with the
required `uploadData` file part, an optional field never appears as a part
unless supplied, and a supplied field appears exactly when it passes its
guard (nonempty string, nonzero folder id, nonempty list, any defined
metadata record or boolean). -/
theorem C8_upload_parts_characterization (o : FileUploadOptions) :
    (uploadFormParts o).head? = some ("uploadData", FormVal.file o.fileData o.fileName)
    ∧ lookupKey "targetMandatorName" (uploadFormParts o)
      = optLookup o.targetMandatorName strTruthy FormVal.text
    ∧ lookupKey "targetFolderPath" (uploadFormParts o)
      = optLookup o.targetFolderPath strTruthy FormVal.text
    ∧ lookupKey "targetFolderId" (uploadFormParts o)
      = optLookup o.targetFolderId numTruthy (fun n => FormVal.text (intStr n))
    ∧ lookupKey "targetDocumentName" (uploadFormParts o)
      = optLookup o.targetDocumentName strTruthy FormVal.text
    ∧ lookupKey "keywords" (uploadFormParts o)
      = optLookup o.keywords listTruthy (fun ks => FormVal.text (joinComma ks))
    ∧ lookupKey "documentTypes" (uploadFormParts o)
      = optLookup o.documentTypes listTruthy (fun ks => FormVal.text (joinComma ks))
    ∧ lookupKey "externalId" (uploadFormParts o)
      = optLookup o.externalId strTruthy FormVal.text
    ∧ lookupKey "externalMetadatas" (uploadFormParts o)
      = o.externalMetadata.map (fun m => FormVal.text (jsonStringifyRecord m))
    ∧ lookupKey "emailImportOrder" (uploadFormParts o)
      = optLookup o.emailImportOrder strTruthy FormVal.text
    ∧ lookupKey "forceNewDocument" (uploadFormParts o)
      = o.forceNewDocument.map (fun b => FormVal.text (boolStr b)) :=
  ⟨upload_head o, upload_lk_targetMandatorName o, upload_lk_targetFolderPath o,
   upload_lk_targetFolderId o, upload_lk_targetDocumentName o, upload_lk_keywords o,
   upload_lk_documentTypes o, upload_lk_externalId o, upload_lk_externalMetadata o,
   upload_lk_emailImportOrder o, upload_lk_forceNewDocument o⟩

/-- C8 fails as stated: an empty keyword list is a supplied field, yet the
built request contains no `keywords` part. -/
theorem C8_counterexample :
    (({ fileData := [1], fileName := "f".data, keywords := some [] }
        : FileUploadOptions).keywords).isSome = true
    ∧ lookupKey "keywords"
        (uploadFormParts { fileData := [1], fileName := "f".data, keywords := some [] })
      = none := by decide

/-- `FolderCreateOptions`. -/
structure FolderCreateOptions where
  name : List Char
  parentFolderId : Option Int := none
  parentFolderPath : Option (List Char) := none
deriving DecidableEq

/-- `createFolder` JSON-body construction (identical in both variants):
required `name`, then the truthiness-guarded `parentFolderId` and
`parentFolderPath` fields. -/
def folderCreateBody (o : FolderCreateOptions) : List (String × JsVal) :=
  [("name", JsVal.str o.name)]
  ++ optEntry "parentFolderId" o.parentFolderId numTruthy JsVal.num
  ++ optEntry "parentFolderPath" o.parentFolderPath strTruthy JsVal.str

theorem folder_lk_name (o : FolderCreateOptions) :
    lookupKey "name" (folderCreateBody o) = some (JsVal.str o.name) := by
  simp [folderCreateBody, lookupKey, lookupKey_append, lookupKey_optEntry, or_some_left]

theorem folder_lk_parentFolderId (o : FolderCreateOptions) :
    lookupKey "parentFolderId" (folderCreateBody o)
      = optLookup o.parentFolderId numTruthy JsVal.num := by
  simp [folderCreateBody, lookupKey, lookupKey_append, lookupKey_optEntry, Option.or_none,
    Option.none_or]

theorem folder_lk_parentFolderPath (o : FolderCreateOptions) :
    lookupKey "parentFolderPath" (folderCreateBody o)
      = optLookup o.parentFolderPath strTruthy JsVal.str := by
  simp [folderCreateBody, lookupKey, lookupKey_append, lookupKey_optEntry, Option.or_none,
    Option.none_or]

/-- C9 (amended): the options tested against `undefined` — the booleans
`with-autoexport-status`, `subfolders-recursive`, `forceNewDocument`,
`recursive`, `include-trash`, and also the number-valued
`pagination-size`, `pagination-page`, `location-folder-id` and
`archiver-id` — serialize the falsy values `false` and `0` onto the wire;
the remaining truthiness-tested number- and string-valued options omit the
defined falsy values `0` and `""` from query strings, JSON bodies and
multipart parts (`parentFolderId` in archive-structure and in the
folder-create body, `targetFolderId`, empty fulltext terms). -/
theorem C9_guard_asymmetry :
    (∀ o : DocumentListOptions,
      lookupKey "with-autoexport-status" (listDocumentsParamsAxios o)
        = o.withAutoexportStatus.map JsVal.bool
      ∧ lookupKey "subfolders-recursive" (listDocumentsParamsAxios o)
        = o.subfoldersRecursive.map JsVal.bool)
    ∧ (∀ o : FileUploadOptions,
      lookupKey "forceNewDocument" (uploadFormParts o)
        = o.forceNewDocument.map (fun b => FormVal.text (boolStr b)))
    ∧ (∀ o : SearchOptions,
      lookupKey "recursive" (searchParams o) = o.recursive.map JsVal.bool
      ∧ lookupKey "include-trash" (searchParams o) = o.includeTrash.map JsVal.bool
      ∧ lookupKey "pagination-size" (searchParams o) = o.paginationSize.map JsVal.num
      ∧ lookupKey "pagination-page" (searchParams o) = o.paginationPage.map JsVal.num
      ∧ lookupKey "location-folder-id" (searchParams o) = o.locationFolderId.map JsVal.num
      ∧ lookupKey "archiver-id" (searchParams o) = o.archiverId.map JsVal.num)
    ∧ (∀ o : FolderCreateOptions,
      lookupKey "parentFolderId" (folderCreateBody o)
        = optLookup o.parentFolderId numTruthy JsVal.num)
    ∧ archiveStructureParams { parentFolderId := some 0 } = []
    ∧ lookupKey "targetFolderId"
        (uploadFormParts { fileData := [], fileName := [], targetFolderId := some 0 }) = none
    ∧ lookupKey "parentFolderId"
        (folderCreateBody { name := "X".data, parentFolderId := some 0 }) = none
    ∧ lookupKey "fulltext-all" (searchParams { fulltextAll := some [] }) = none
    ∧ lookupKey "fulltext-one" (searchParams { fulltextOne := some [] }) = none
    ∧ lookupKey "fulltext-none" (searchParams { fulltextNone := some [] }) = none :=
  ⟨fun o => ⟨listAx_lk_autoexport o, listAx_lk_subfolders o⟩,
   fun o => upload_lk_forceNewDocument o,
   fun o => ⟨search_lk_recursive o, search_lk_includeTrash o, search_lk_paginationSize o,
     search_lk_paginationPage o, search_lk_locationFolderId o, search_lk_archiverId o⟩,
   fun o => folder_lk_parentFolderId o,
   by decide, by decide, by decide, by decide, by decide, by decide⟩

/-- C9 fails as stated: `locationFolderId` and `archiverId` are
number-valued optional options tested against `undefined`
(not for truthiness), so the defined-but-falsy value `0` is serialized
onto the wire instead of being omitted. -/
theorem C9_counterexample :
    lookupKey "location-folder-id" (searchParams { locationFolderId := some 0 })
      = some (JsVal.num 0)
    ∧ lookupKey "archiver-id" (searchParams { archiverId := some 0 })
      = some (JsVal.num 0) := by decide

end Docbox
